import Mathlib

/-!
Verification development for the CytoPy population/cluster hierarchy core
(`src/CytoPy/data/fcs.py`).  The Python classes `Cluster`, `ControlIndex`,
`PopulationGeometry`, `Population` and `FileGroup`, together with the free
function `merge_populations`, are embedded as Lean structures and functions.

Modelling conventions:
- numpy index arrays are `List Int`; a pickled payload that may be Python
  `None` is an `Option (List Int)`.
- Python floats are modelled as `Rat` (all arithmetic in the embedded code is
  ratio arithmetic on event counts).
- A mongoengine `FileField` (GridFS proxy) is a `FileBlob`: an optional stored
  payload plus a file-pointer flag.  `read()` on a GridFS proxy returns the
  payload on the first call, and the empty byte string once the cached file
  handle has been read to its end (the proxy caches the gridout object, so a
  second `read()` without `seek(0)` yields `b""`); with no stored file it
  returns Python `None`.
- Exceptions are values of `PyError` returned through `Except`.
- The shapely library is external: its geometry type and operations are a
  parameter `ShapelyOps Shp` of every geometry-using function, and the calls
  the source makes (`Polygon(...)`, `Point(center).buffer(1)`,
  `affinity.scale`, `affinity.rotate`, `.intersects`, `.intersection(...).area`,
  `.area`, `unary_union`) are fields of that parameter.  A symbolic instance
  `symOps` is used for concrete witnesses.
- `File`, the raw-event-table operations and the mongoengine persistence of
  the outer document are not modelled beyond success/failure of `save`, since
  no claim depends on them.
-/

/-- Python exceptions raised by the embedded code paths. -/
inductive PyError where
  | assertionError (msg : String)
  | indexError
  | typeError (msg : String)
  | valueError (msg : String)
  | zeroDivisionError
  | attributeError
  | eofError
deriving DecidableEq, Repr

/-- Result of `GridFSProxy.read()`: no stored file gives Python `None`, a
stored file gives its (pickled) payload on a fresh handle, and the empty byte
string `b""` when the cached handle is already at end of file. -/
inductive ReadResult (α : Type) where
  | nofile
  | exhausted
  | bytesOf (v : α)
deriving DecidableEq, Repr

/-- A mongoengine `FileField` value: optional stored payload (`none` while no
file has been written) and whether the cached gridout handle has already been
read to its end. -/
structure FileBlob (α : Type) where
  content : Option α
  pos_end : Bool
deriving DecidableEq, Repr

/-- One `read()` call on the proxy: returns the observed value and the proxy
state afterwards. -/
def FileBlob.read {α : Type} (b : FileBlob α) : ReadResult α × FileBlob α :=
  match b.content with
  | none => (ReadResult.nofile, b)
  | some v =>
    if b.pos_end then (ReadResult.exhausted, b)
    else (ReadResult.bytesOf v, { b with pos_end := true })

/-- Python truthiness of an optional float field: `None` and `0.0` are falsy. -/
def truthyFloat : Option Rat → Bool
  | none => false
  | some x => !(x == 0)

/-- Python truthiness of an optional string field: `None` and `""` are falsy. -/
def truthyStr : Option String → Bool
  | none => false
  | some s => !s.isEmpty

/-- Interface of the external shapely library as used by `fcs.py`. -/
structure ShapelyOps (Shp : Type) where
  polygon : List (Rat × Rat) → Shp
  pointBuffer : List Rat → Rat → Shp
  scale : Shp → Rat → Rat → Shp
  rotate : Shp → Rat → Shp
  intersects : Shp → Shp → Bool
  intersectionArea : Shp → Shp → Rat
  area : Shp → Rat
  unaryUnion : List Shp → Shp

/-- Embedded from `PopulationGeometry` (fcs.py lines 172-220).  Unset
mongoengine fields are `none` / the empty list. -/
structure PopulationGeometry where
  x_values : List Rat
  y_values : List Rat
  width : Option Rat
  height : Option Rat
  center : List Rat
  angle : Option Rat
  x_threshold : Option Rat
  y_threshold : Option Rat
deriving DecidableEq, Repr

/-- Embedded from the `shape` property (fcs.py lines 189-208):
`if self.x_values and self.y_values:` builds a polygon from the zipped point
list; `elif all([self.width, self.height, self.center, self.angle]):` builds
`affinity.rotate(affinity.scale(Point(self.center).buffer(1), width, height), angle)`;
otherwise the property returns Python `None`.  The `all([...])` test uses
Python truthiness, so a float field equal to `0.0` fails it. -/
def PopulationGeometry.shape {Shp : Type} (ops : ShapelyOps Shp)
    (g : PopulationGeometry) : Option Shp :=
  if !g.x_values.isEmpty && !g.y_values.isEmpty then
    some (ops.polygon (g.x_values.zip g.y_values))
  else if truthyFloat g.width && truthyFloat g.height &&
      !g.center.isEmpty && truthyFloat g.angle then
    some (ops.rotate
      (ops.scale (ops.pointBuffer g.center 1) (g.width.getD 0) (g.height.getD 0))
      (g.angle.getD 0))
  else none

/-- Embedded from `PopulationGeometry.overlap` (fcs.py lines 210-220).  When
the own shape is `None` the method warns and returns Python `None`
(modelled `Except.ok none`); otherwise it computes
`intersection.area / self.shape.area` when the shapes intersect, returning the
ratio when it reaches `threshold` and `0.` otherwise.  A zero own area would
raise `ZeroDivisionError` in Python float division. -/
def PopulationGeometry.overlap {Shp : Type} (ops : ShapelyOps Shp)
    (g : PopulationGeometry) (comparison_poly : Shp) (threshold : Rat) :
    Except PyError (Option Rat) :=
  match g.shape ops with
  | none => Except.ok none
  | some s =>
    if ops.intersects s comparison_poly then
      if ops.area s = 0 then Except.error PyError.zeroDivisionError
      else
        let overlap := ops.intersectionArea s comparison_poly / ops.area s
        if threshold ≤ overlap then Except.ok (some overlap)
        else Except.ok (some 0)
    else Except.ok (some 0)

/-- Embedded from `Cluster` (fcs.py lines 58-113).  The `index` FileField
stores a pickled payload that is itself an array or Python `None`.  The
reference to the `ClusteringDefinition` document is kept as its uid. -/
structure Cluster where
  cluster_id : String
  index : FileBlob (Option (List Int))
  n_events : Int
  prop_of_root : Rat
  cluster_experiment_uid : Option String
  meta_cluster_id : Option String
deriving DecidableEq, Repr

/-- Embedded from `Cluster.save_index` (fcs.py lines 84-102): both the
`replace` branch and the `new_file`/`write`/`close` branch leave the blob
holding `pickle.dumps(data)`; there is no check that `data` is present. -/
def Cluster.save_index (c : Cluster) (data : Option (List Int)) : Cluster :=
  { c with index := { content := some data, pos_end := false } }

/-- Embedded from `Cluster.load_index` (fcs.py lines 104-113):
`pickle.loads(bytes(self.index.read()))`.  With no stored file `read()` gives
`None` and `bytes(None)` raises `TypeError`; on an exhausted handle `read()`
gives `b""` and `pickle.loads(b"")` raises `EOFError`.  The file-pointer
advance of the read is not tracked here: no embedded operation reads the same
cluster blob twice. -/
def Cluster.load_index (c : Cluster) : Except PyError (Option (List Int)) :=
  match (FileBlob.read c.index).1 with
  | ReadResult.nofile => Except.error (PyError.typeError "cannot convert NoneType object to bytes")
  | ReadResult.exhausted => Except.error PyError.eofError
  | ReadResult.bytesOf v => Except.ok v

/-- Embedded from `ControlIndex` (fcs.py lines 116-169): `control_id`, the
in-memory `index` array set in `__init__`, and the `_index_file` FileField. -/
structure ControlIndex where
  control_id : String
  index : Option (List Int)
  index_file : FileBlob (List Int)
deriving DecidableEq, Repr

/-- Embedded from `ControlIndex.save_index` (fcs.py lines 135-154): the body
is guarded by `if self.index is not None:`, so with `self.index` absent the
call returns without writing anything and without raising; otherwise the blob
is replaced/written with the pickled `data` argument. -/
def ControlIndex.save_index (c : ControlIndex) (data : List Int) : ControlIndex :=
  match c.index with
  | none => c
  | some _ => { c with index_file := { content := some data, pos_end := false } }

/-- Embedded from `ControlIndex.load_index` (fcs.py lines 156-169):
`data = self._index_file.read()`; when `data` is truthy the in-memory `index`
is set and returned, otherwise the method returns `None` and leaves
`self.index` unchanged. -/
def ControlIndex.load_index (c : ControlIndex) : Option (List Int) × ControlIndex :=
  match FileBlob.read c.index_file with
  | (ReadResult.bytesOf d, f) => (some d, { c with index_file := f, index := some d })
  | (_, f) => (none, { c with index_file := f })

/-- Embedded from `Population` (fcs.py lines 223-264).  `index` is the
in-memory numpy array set in `__init__` (`kwargs.get("index", None)`);
`index_file` is the `_index_file` FileField. -/
structure Population where
  population_name : String
  index : Option (List Int)
  index_file : FileBlob (List Int)
  parent : String
  prop_of_parent : Option Rat
  prop_of_total : Option Rat
  warnings : List String
  geom : PopulationGeometry
  definition : Option String
  clusters : List Cluster
  control_idx : List ControlIndex
deriving DecidableEq, Repr

/-- Embedded from the `n` property (fcs.py lines 266-270): `0` when the
in-memory index is `None`, else its length. -/
def Population.n (p : Population) : Nat :=
  match p.index with
  | none => 0
  | some l => l.length

/-- Embedded from `Population.save_index` (fcs.py lines 284-294):
`assert self.index is not None, "Index is null"`, then the blob is
replaced/written with the pickled in-memory index. -/
def Population.save_index (p : Population) : Except PyError Population :=
  match p.index with
  | none => Except.error (PyError.assertionError "Index is null")
  | some d => Except.ok { p with index_file := { content := some d, pos_end := false } }

/-- Embedded from `Population.load_index` (fcs.py lines 296-309): identical
logic to `ControlIndex.load_index`. -/
def Population.load_index (p : Population) : Option (List Int) × Population :=
  match FileBlob.read p.index_file with
  | (ReadResult.bytesOf d, f) => (some d, { p with index_file := f, index := some d })
  | (_, f) => (none, { p with index_file := f })

/-- Ascending insertion of one element, used to model the sort performed by
`np.unique`. -/
def insortI (a : Int) : List Int → List Int
  | [] => [a]
  | b :: t => if a ≤ b then a :: b :: t else b :: insortI a t

/-- Ascending sort, used to model the sort performed by `np.unique`. -/
def sortI (l : List Int) : List Int := l.foldr insortI []

/-- Model of `np.unique` on a one-dimensional integer array: the sorted list
of distinct values. -/
def npUnique (l : List Int) : List Int := (sortI l).dedup

/-- Concatenation of a list of one-dimensional arrays, the well-formed part of
`np.concatenate(list_of_arrays, axis=0)`. -/
def flattenL : List (List Int) → List Int
  | [] => []
  | a :: r => a ++ flattenL r

/-- Model of `np.concatenate(arrays, axis=0)` where `arrays` is a Python list
whose elements are the unpickled payloads (each an array or `None`): an empty
list or a `None` element (a zero-dimensional object array) raises
`ValueError`; otherwise the arrays are concatenated. -/
def npConcatenateAxis0 (arrays : List (Option (List Int))) :
    Except PyError (List Int) :=
  if arrays.isEmpty then
    Except.error (PyError.valueError "need at least one array to concatenate")
  else if arrays.any (fun o => o.isNone) then
    Except.error (PyError.valueError "zero-dimensional arrays cannot be concatenated")
  else Except.ok (flattenL (arrays.filterMap id))

/-- Model of the call `np.concatenate(first, second)` with two positional
one-dimensional integer arrays, as written in `merge_populations` (fcs.py
line 736).  NumPy reads `first` as the sequence of arrays to concatenate —
its elements are zero-dimensional — and `second` as the `axis` argument,
which must convert to a scalar index.  Every such call raises. -/
def npConcatenatePos (first second : List Int) : Except PyError (List Int) :=
  if first.isEmpty then
    Except.error (PyError.valueError "need at least one array to concatenate")
  else if second.length ≠ 1 then
    Except.error (PyError.typeError "only integer scalar arrays can be converted to a scalar index")
  else
    Except.error (PyError.valueError "zero-dimensional arrays cannot be concatenated")

/-- The list comprehension `[c for c in self.clusters if c.meta_cluster_id == cluster_id]`
from `Population.get_cluster` (fcs.py line 440). -/
def metaMatches (p : Population) (cluster_id : String) : List Cluster :=
  p.clusters.filter (fun c => c.meta_cluster_id == some cluster_id)

/-- The list comprehension `[c.load_index() for c in clusters]` (fcs.py line
442): sequential loads, propagating the first exception. -/
def loadIndices : List Cluster → Except PyError (List (Option (List Int)))
  | [] => Except.ok []
  | c :: rest =>
    match Cluster.load_index c with
    | Except.error e => Except.error e
    | Except.ok v =>
      match loadIndices rest with
      | Except.error e => Except.error e
      | Except.ok vs => Except.ok (v :: vs)

/-- Return value of `Population.get_cluster`: the meta branch returns the
matching cluster list with the deduplicated union array, the exact-id branch
returns the single cluster with its own unpickled payload. -/
inductive ClusterResult where
  | group (cs : List Cluster) (idx : List Int)
  | single (c : Cluster) (idx : Option (List Int))
deriving DecidableEq, Repr

/-- Embedded from `Population.get_cluster` (fcs.py lines 422-448).  With
`meta` true: filter the clusters on `meta_cluster_id`, `assert clusters`
(AssertionError when empty), load each index, and return
`np.unique(np.concatenate(idx, axis=0), axis=0)`.  With `meta` false: filter
on exact `cluster_id`, assert non-empty and unique, and return the single
cluster with its loaded index. -/
def Population.get_cluster (p : Population) (cluster_id : String) (meta : Bool) :
    Except PyError ClusterResult :=
  if meta then
    let clusters := metaMatches p cluster_id
    if clusters.isEmpty then
      Except.error (PyError.assertionError
        ("No such cluster(s) with meta clustering ID " ++ cluster_id))
    else
      match loadIndices clusters with
      | Except.error e => Except.error e
      | Except.ok idx =>
        match npConcatenateAxis0 idx with
        | Except.error e => Except.error e
        | Except.ok cat => Except.ok (ClusterResult.group clusters (npUnique cat))
  else
    match p.clusters.filter (fun c => c.cluster_id == cluster_id) with
    | [] => Except.error (PyError.assertionError
        ("No such cluster with clustering ID " ++ cluster_id))
    | [c] =>
      match Cluster.load_index c with
      | Except.error e => Except.error e
      | Except.ok v => Except.ok (ClusterResult.single c v)
    | _ => Except.error (PyError.assertionError
        ("Multiple clusters with ID " ++ cluster_id))

/-- Embedded from `FileGroup` (fcs.py lines 526-560).  The `files`,
`collection_datetime` and `processing_datetime` fields are unused by the
modelled operations and omitted; the source line
`notes = mongoengine.StringField(required=False),` ends in a comma, making
`notes` a plain tuple rather than a document field, so it is omitted too. -/
structure FileGroup where
  primary_id : String
  populations : List Population
  flags : Option String
deriving DecidableEq, Repr

/-- One iteration of the loop body in `FileGroup.save` (fcs.py lines 564-570),
given the already-selected values `parent_n` and `root_n`:
`p.prop_of_parent = p.n/parent_n` (ZeroDivisionError when `parent_n` is 0),
`p.prop_of_total = p.n/root_n` (likewise), then
`for ctrl in p.control_idx: ctrl.save_index()` — a call that omits the
required `data` argument of `ControlIndex.save_index` and therefore raises
`TypeError` as soon as a control index exists — then `p.save_index()`. -/
def popSaveStep (parent_n root_n : Nat) (p : Population) :
    Except PyError Population :=
  if parent_n = 0 then Except.error PyError.zeroDivisionError
  else
    let p1 := { p with prop_of_parent := some ((p.n : Rat) / (parent_n : Rat)) }
    if root_n = 0 then Except.error PyError.zeroDivisionError
    else
      let p2 := { p1 with prop_of_total := some ((p1.n : Rat) / (root_n : Rat)) }
      if p2.control_idx.isEmpty then Population.save_index p2
      else Except.error (PyError.typeError
        "save_index() missing 1 required positional argument: data")

/-- The loop `for p in self.populations:` of `FileGroup.save`.  Each iteration
re-evaluates `[p for p in self.populations if p.population_name == p.parent][0].n`
against the current in-memory list (`done` holds the already-mutated prefix).
The comprehension variable `p` shadows the loop variable, so the filter
selects the populations whose `population_name` equals their own `parent` —
independently of the population being processed — and `IndexError` is raised
when there is none. -/
def saveLoop (root_n : Nat) (done : List Population) :
    List Population → Except PyError (List Population)
  | [] => Except.ok done
  | p :: rest =>
    match (done ++ p :: rest).filter (fun q => q.population_name == q.parent) with
    | [] => Except.error PyError.indexError
    | sp :: _ =>
      match popSaveStep (Population.n sp) root_n p with
      | Except.error e => Except.error e
      | Except.ok p2 => saveLoop root_n (done ++ [p2]) rest

/-- Embedded from `FileGroup.save` (fcs.py lines 562-571):
`root_n = [p for p in self.populations if p.population_name == "root"][0].n`
(IndexError when no population is named "root"), then the per-population loop,
then `super().save(...)` commits the record (modelled as returning the final
in-memory state). -/
def FileGroup.save (fg : FileGroup) : Except PyError FileGroup :=
  match fg.populations.filter (fun p => p.population_name == "root") with
  | [] => Except.error PyError.indexError
  | r :: _ =>
    match saveLoop (Population.n r) [] fg.populations with
    | Except.error e => Except.error e
    | Except.ok pops => Except.ok { fg with populations := pops }

/-- Python prefix test on character lists: `startsWith sub l` is true when
`l` begins with `sub`. -/
def pyStartsWith : List Char → List Char → Bool
  | [], _ => true
  | _ :: _, [] => false
  | a :: as, b :: bs => a == b && pyStartsWith as bs

/-- Python substring containment `sub in s` on character lists: true when
`sub` occurs contiguously in `s` (the empty string is contained in every
string). -/
def pyStrIn : List Char → List Char → Bool
  | sub, [] => sub.isEmpty
  | sub, c :: t => pyStartsWith sub (c :: t) || pyStrIn sub t

/-- The Python value passed as `populations` to `FileGroup.delete_populations`:
a string, a list of names, or the builtin `all` object (which the source
compares against with `==`). -/
inductive PyPopulationsArg where
  | str (s : String)
  | list (names : List String)
  | allBuiltin
deriving DecidableEq, Repr

/-- The test `populations == all` (fcs.py line 640): only the builtin `all`
object itself compares equal; a string or list never does. -/
def isAllBuiltin : PyPopulationsArg → Bool
  | PyPopulationsArg.allBuiltin => true
  | _ => false

/-- The Python membership test `p.population_name not in populations` without
the negation: substring containment when `populations` is a string, list
membership when it is a list.  The `allBuiltin` case is unreachable — it is
caught by the `== all` test first — and `name in all` would raise `TypeError`;
it is mapped to `false`. -/
def pyNameIn (name : String) : PyPopulationsArg → Bool
  | PyPopulationsArg.str s => pyStrIn name.toList s.toList
  | PyPopulationsArg.list names => names.contains name
  | PyPopulationsArg.allBuiltin => false

/-- Embedded from `FileGroup.delete_populations` (fcs.py lines 627-644): when
the argument `== all`, clear the population list, otherwise keep the
populations whose name is `not in populations`; then `self.save()`.  The
first component is the in-memory FileGroup right after the removal step (the
mutation survives even when the subsequent save raises); the second is the
outcome of the save. -/
def FileGroup.delete_populations (fg : FileGroup) (populations : PyPopulationsArg) :
    FileGroup × Except PyError FileGroup :=
  let fg2 :=
    if isAllBuiltin populations then { fg with populations := [] }
    else { fg with populations :=
      fg.populations.filter (fun p => !(pyNameIn p.population_name populations)) }
  (fg2, FileGroup.save fg2)

/-- Result record of `merge_populations` (fcs.py lines 732-738): the
`Population(...)` constructor there is called with an explicit `n`, a shapely
union object as `geom` and no clusters or control indices, so the result is
modelled as its own record. -/
structure MergedPopulation (Shp : Type) where
  population_name : String
  n : Nat
  parent : String
  warnings : List String
  index : List Int
  geom : Shp
  definition : Option String

/-- Embedded from `merge_populations` (fcs.py lines 720-739):
`assert left_p.parent == right_p.parent, "Parent populations do not match"`;
`assert left_p.geom.shape.intersects(right_p.geom.shape), ...` (an absent
shape makes the attribute access / the shapely call raise instead); the two
`warn(...)` calls have no state effect and are not modelled; the definition
strings are joined when both are truthy; then the keyword arguments of
`Population(...)` are evaluated in order — `n` via `len` on both in-memory
indices (`TypeError` when one is `None`), then
`index=np.unique(np.concatenate(left_p.index, right_p.index))`, the
two-positional-arrays call modelled by `npConcatenatePos`, then
`geom=unary_union(...)`. -/
def mergePopulations {Shp : Type} (ops : ShapelyOps Shp)
    (left_p right_p : Population) : Except PyError (MergedPopulation Shp) :=
  if left_p.parent = right_p.parent then
    match PopulationGeometry.shape ops left_p.geom with
    | none => Except.error PyError.attributeError
    | some ls =>
      match PopulationGeometry.shape ops right_p.geom with
      | none => Except.error PyError.attributeError
      | some rs =>
        if ops.intersects ls rs then
          let new_definition :=
            if truthyStr left_p.definition && truthyStr right_p.definition then
              some ((left_p.definition.getD "") ++ "," ++ (right_p.definition.getD ""))
            else none
          match left_p.index, right_p.index with
          | some li, some ri =>
            (match npConcatenatePos li ri with
             | Except.error e => Except.error e
             | Except.ok cat =>
               Except.ok
                 { population_name := left_p.population_name
                   n := li.length + ri.length
                   parent := left_p.parent
                   warnings := left_p.warnings ++ right_p.warnings ++ ["MERGED POPULATION"]
                   index := npUnique cat
                   geom := ops.unaryUnion [ls, rs]
                   definition := new_definition })
          | _, _ =>
            Except.error (PyError.typeError "object of type NoneType has no len()")
        else
          Except.error (PyError.assertionError
            "Invalid: cannot merge non-overlapping populations")
  else Except.error (PyError.assertionError "Parent populations do not match")

/-- Symbolic shapely geometry used to instantiate `ShapelyOps` for concrete
witnesses: shapes are the syntax trees of the constructing calls, and
`intersects` is decidable equality of those trees. -/
inductive SymShape where
  | poly (pts : List (Rat × Rat))
  | buffered (center : List Rat) (radius : Rat)
  | scaled (s : SymShape) (xfact yfact : Rat)
  | rotated (s : SymShape) (angle : Rat)
deriving DecidableEq, Repr

/-- Concrete `ShapelyOps` instance over `SymShape`. -/
def symOps : ShapelyOps SymShape :=
  { polygon := SymShape.poly
    pointBuffer := SymShape.buffered
    scale := SymShape.scaled
    rotate := SymShape.rotated
    intersects := fun a b => a == b
    intersectionArea := fun _ _ => 0
    area := fun _ => 1
    unaryUnion := fun l => l.headD (SymShape.poly []) }

/-! Concrete example data used by witnesses, counterexamples and failing-input
evaluations. -/

/-- Geometry with every field unset. -/
def emptyGeom : PopulationGeometry :=
  { x_values := [], y_values := [], width := none, height := none,
    center := [], angle := none, x_threshold := none, y_threshold := none }

/-- FileField with no stored file yet. -/
def freshBlob : FileBlob (List Int) := { content := none, pos_end := false }

/-- Population with every field at its unset/default value (`parent` defaults
to "root" in the source). -/
def basePop : Population :=
  { population_name := "", index := none, index_file := freshBlob,
    parent := "root", prop_of_parent := none, prop_of_total := none,
    warnings := [], geom := emptyGeom, definition := none,
    clusters := [], control_idx := [] }

/-- Cluster with every field at its unset/default value. -/
def baseCluster : Cluster :=
  { cluster_id := "", index := { content := none, pos_end := false },
    n_events := 0, prop_of_root := 0, cluster_experiment_uid := none,
    meta_cluster_id := none }

/-- Root population with 4 events. -/
def rootPop4 : Population :=
  { basePop with population_name := "root", index := some [0, 1, 2, 3] }

/-- Child of root with 2 events. -/
def popA2 : Population :=
  { basePop with population_name := "A", index := some [0, 1] }

/-- Child of "A" with 1 event: its parent has 2 events while root has 4. -/
def popB1 : Population :=
  { basePop with population_name := "B", parent := "A", index := some [0] }

/-- FileGroup for the proportion-recomputation failing input: root(4) ← A(2) ← B(1). -/
def fgC1 : FileGroup :=
  { primary_id := "s1", populations := [rootPop4, popA2, popB1], flags := none }

/-- Root population with 2 events. -/
def rootPop2 : Population :=
  { basePop with population_name := "root", index := some [0, 1] }

/-- Population whose `parent` name "ghost" resolves to no population. -/
def popGhost : Population :=
  { basePop with population_name := "C", parent := "ghost", index := some [0] }

/-- FileGroup with a dangling parent reference. -/
def fgDangling : FileGroup :=
  { primary_id := "s2", populations := [rootPop2, popGhost], flags := none }

/-- Population named "X"; no population named "root" accompanies it. -/
def popX : Population :=
  { basePop with population_name := "X", index := some [0] }

/-- FileGroup with no population named "root". -/
def fgNoRoot : FileGroup :=
  { primary_id := "s3", populations := [popX], flags := none }

/-- Unit-square polygon geometry. -/
def squareGeom : PopulationGeometry :=
  { emptyGeom with x_values := [0, 0, 1, 1], y_values := [0, 1, 1, 0] }

/-- Triangle polygon geometry distinct from `squareGeom`. -/
def triGeom : PopulationGeometry :=
  { emptyGeom with x_values := [0, 2, 4], y_values := [0, 3, 0] }

/-- Left merge input: parent "root", index {1,2,3}, square geometry. -/
def popMergeL : Population :=
  { basePop with population_name := "L", index := some [1, 2, 3], geom := squareGeom }

/-- Right merge input: parent "root", index {3,4}, the same square geometry
(so the shapes intersect). -/
def popMergeR : Population :=
  { basePop with population_name := "R", index := some [3, 4], geom := squareGeom }

/-- Merge input whose parent differs from `popMergeL`. -/
def popOtherParent : Population :=
  { basePop with
    population_name := "P2"
    parent := "other"
    index := some [7]
    geom := squareGeom }

/-- Merge input with square geometry, parent "root". -/
def popDisjointL : Population :=
  { basePop with population_name := "D1", index := some [1], geom := squareGeom }

/-- Merge input with triangle geometry (not intersecting `popDisjointL`
under `symOps`), parent "root". -/
def popDisjointR : Population :=
  { basePop with population_name := "D2", index := some [2], geom := triGeom }

/-- Cluster with meta id "M1" and stored index {1,2,3}. -/
def clusterM1a : Cluster :=
  { baseCluster with
    cluster_id := "c1"
    meta_cluster_id := some "M1"
    n_events := 3
    index := { content := some (some [1, 2, 3]), pos_end := false } }

/-- Cluster with meta id "M1" and stored index {3,4}. -/
def clusterM1b : Cluster :=
  { baseCluster with
    cluster_id := "c2"
    meta_cluster_id := some "M1"
    n_events := 2
    index := { content := some (some [3, 4]), pos_end := false } }

/-- Cluster with meta id "M1" and stored index {5}. -/
def clusterM1c : Cluster :=
  { baseCluster with
    cluster_id := "c3"
    meta_cluster_id := some "M1"
    n_events := 1
    index := { content := some (some [5]), pos_end := false } }

/-- Population holding the three "M1" clusters. -/
def popM1 : Population :=
  { basePop with
    population_name := "root"
    clusters := [clusterM1a, clusterM1b, clusterM1c] }

/-- Geometry whose ellipse fields are all populated with `angle = 0`. -/
def zeroAngleGeom : PopulationGeometry :=
  { emptyGeom with
    width := some 2
    height := some 1
    center := [3, 4]
    angle := some 0 }

/-- Population whose index blob stores {1,2,3} and whose in-memory index is
not yet loaded. -/
def popC8 : Population :=
  { basePop with
    population_name := "p8"
    index_file := { content := some [1, 2, 3], pos_end := false } }

/-- Control index whose in-memory `index` is absent while a blob exists. -/
def ctrlNoIdx : ControlIndex :=
  { control_id := "c1", index := none,
    index_file := { content := some [9], pos_end := false } }

/-- FileGroup whose single population "root" is not a substring of "all". -/
def fgAll : FileGroup :=
  { primary_id := "s4",
    populations := [{ basePop with population_name := "root", index := some [0] }],
    flags := none }

/-! Helper lemmas about the numpy and Python-string models. -/

/-- Membership in an ascending insertion. -/
lemma mem_insortI (x a : Int) (l : List Int) :
    x ∈ insortI a l ↔ x = a ∨ x ∈ l := by
  induction l with
  | nil => simp [insortI]
  | cons b t ih =>
    by_cases h : a ≤ b
    · simp [insortI, h]
    · simp only [insortI, if_neg h, List.mem_cons, ih]
      tauto

/-- Sorting preserves membership. -/
lemma mem_sortI (x : Int) (l : List Int) : x ∈ sortI l ↔ x ∈ l := by
  induction l with
  | nil => simp [sortI]
  | cons a t ih =>
    show x ∈ insortI a (sortI t) ↔ x ∈ a :: t
    rw [mem_insortI]
    simp only [List.mem_cons, ih]

/-- The `np.unique` model preserves membership. -/
lemma mem_npUnique (x : Int) (l : List Int) : x ∈ npUnique l ↔ x ∈ l := by
  unfold npUnique
  rw [List.mem_dedup, mem_sortI]

/-- The `np.unique` model removes duplicates. -/
lemma nodup_npUnique (l : List Int) : (npUnique l).Nodup := List.nodup_dedup _

/-- Membership in a concatenation of arrays. -/
lemma mem_flattenL (x : Int) (ls : List (List Int)) :
    x ∈ flattenL ls ↔ ∃ l ∈ ls, x ∈ l := by
  induction ls with
  | nil => simp [flattenL]
  | cons a r ih => simp [flattenL, List.mem_append, ih]

/-- Characterisation of the Python string prefix test. -/
lemma pyStartsWith_iff : ∀ (sub l : List Char),
    pyStartsWith sub l = true ↔ ∃ post, l = sub ++ post
  | [], l => by simp [pyStartsWith]
  | a :: as, [] => by simp [pyStartsWith]
  | a :: as, b :: bs => by
    rw [show pyStartsWith (a :: as) (b :: bs) = (a == b && pyStartsWith as bs) from rfl,
      Bool.and_eq_true, beq_iff_eq, pyStartsWith_iff as bs]
    constructor
    · rintro ⟨rfl, post, rfl⟩
      exact ⟨post, rfl⟩
    · rintro ⟨post, h⟩
      rw [List.cons_append] at h
      injection h with h1 h2
      exact ⟨h1.symm, post, h2⟩

/-- Characterisation of the Python substring test `sub in s`: contiguous
occurrence. -/
lemma pyStrIn_iff : ∀ (sub s : List Char),
    pyStrIn sub s = true ↔ ∃ pre post, s = pre ++ sub ++ post
  | sub, [] => by
    rw [show pyStrIn sub [] = sub.isEmpty from rfl, List.isEmpty_iff]
    constructor
    · rintro rfl
      exact ⟨[], [], rfl⟩
    · rintro ⟨pre, post, h⟩
      rcases List.append_eq_nil.mp ((List.append_eq_nil.mp h.symm).1) with ⟨_, h2⟩
      exact h2
  | sub, c :: t => by
    rw [show pyStrIn sub (c :: t) = (pyStartsWith sub (c :: t) || pyStrIn sub t) from rfl,
      Bool.or_eq_true, pyStartsWith_iff, pyStrIn_iff sub t]
    constructor
    · rintro (⟨post, h⟩ | ⟨pre, post, h⟩)
      · exact ⟨[], post, by simpa using h⟩
      · exact ⟨c :: pre, post, by simp [h]⟩
    · rintro ⟨pre, post, h⟩
      cases pre with
      | nil => exact Or.inl ⟨post, by simpa using h⟩
      | cons d pre2 =>
        rw [List.cons_append, List.cons_append] at h
        injection h with h1 h2
        exact Or.inr ⟨pre2, post, by rw [List.append_assoc] at h2 ⊢; exact h2⟩

/-- When every matching cluster carries a fresh, array-valued blob, the load
comprehension succeeds and returns the stored payloads. -/
lemma loadIndices_ok : ∀ (cs : List Cluster),
    (∀ c ∈ cs, c.index.pos_end = false ∧ ∃ l, c.index.content = some (some l)) →
    loadIndices cs = Except.ok (cs.map (fun c => c.index.content.getD none))
  | [], _ => rfl
  | c :: rest, h => by
    obtain ⟨hp, l, hc⟩ := h c (List.mem_cons_self c rest)
    have hrest := loadIndices_ok rest (fun c2 hm => h c2 (List.mem_cons_of_mem c hm))
    have hload : Cluster.load_index c = Except.ok (some l) := by
      simp [Cluster.load_index, FileBlob.read, hc, hp]
    simp [loadIndices, hload, hrest, hc]

/-- When every matching cluster has an array-valued blob, the
`np.concatenate(idx, axis=0)` call succeeds. -/
lemma npConcatenateAxis0_map_ok (cs : List Cluster)
    (hne : cs ≠ [])
    (h : ∀ c ∈ cs, ∃ l, c.index.content = some (some l)) :
    npConcatenateAxis0 (cs.map (fun c => c.index.content.getD none)) =
      Except.ok (flattenL ((cs.map (fun c => c.index.content.getD none)).filterMap id)) := by
  have h1 : (cs.map (fun c => c.index.content.getD none)).isEmpty = false := by
    cases cs with
    | nil => exact absurd rfl hne
    | cons a t => rfl
  have h2 : (cs.map (fun c => c.index.content.getD none)).any (fun o => o.isNone) = false := by
    rw [Bool.eq_false_iff]
    intro hcontra
    rw [List.any_eq_true] at hcontra
    obtain ⟨o, ho, hnone⟩ := hcontra
    rw [List.mem_map] at ho
    obtain ⟨c, hc, rfl⟩ := ho
    obtain ⟨l, hl⟩ := h c hc
    rw [hl] at hnone
    simp at hnone
  simp [npConcatenateAxis0, h1, h2]

/-! Claim theorems. -/

/-- C6: for every Geometry with no variant fields populated and every
comparison polygon (and any threshold), the overlap query returns the
distinguishable incompleteness signal: the embedded total function returns
`Except.ok none` (the warned Python `None`), so it neither raises (`.error`)
nor returns a numeric value (`.ok (some r)`), for any shapely behaviour
`ops`. -/
theorem overlap_incomplete_signal {Shp : Type} (ops : ShapelyOps Shp)
    (g : PopulationGeometry) (comparison_poly : Shp) (threshold : Rat)
    (hx : g.x_values = []) (hy : g.y_values = []) (hw : g.width = none)
    (hh : g.height = none) (hc : g.center = []) (ha : g.angle = none)
    (hxt : g.x_threshold = none) (hyt : g.y_threshold = none) :
    PopulationGeometry.overlap ops g comparison_poly threshold = Except.ok none
    ∧ (∀ e : PyError,
        PopulationGeometry.overlap ops g comparison_poly threshold ≠ Except.error e)
    ∧ (∀ r : Rat,
        PopulationGeometry.overlap ops g comparison_poly threshold ≠ Except.ok (some r)) := by
  have hshape : PopulationGeometry.shape ops g = none := by
    simp [PopulationGeometry.shape, hx, hw, truthyFloat]
  have hov : PopulationGeometry.overlap ops g comparison_poly threshold = Except.ok none := by
    simp [PopulationGeometry.overlap, hshape]
  exact ⟨hov, fun e => by simp [hov], fun r => by simp [hov]⟩

/-- C6 witness: the all-empty geometry against a concrete triangle. -/
theorem overlap_incomplete_signal_witness :
    emptyGeom.x_values = []
    ∧ (PopulationGeometry.overlap symOps emptyGeom
          (SymShape.poly [(0, 0), (1, 0), (0, 1)]) 0 = Except.ok none
      ∧ (∀ e : PyError, PopulationGeometry.overlap symOps emptyGeom
          (SymShape.poly [(0, 0), (1, 0), (0, 1)]) 0 ≠ Except.error e)
      ∧ (∀ r : Rat, PopulationGeometry.overlap symOps emptyGeom
          (SymShape.poly [(0, 0), (1, 0), (0, 1)]) 0 ≠ Except.ok (some r))) :=
  ⟨rfl, overlap_incomplete_signal symOps emptyGeom
    (SymShape.poly [(0, 0), (1, 0), (0, 1)]) 0 rfl rfl rfl rfl rfl rfl rfl rfl⟩

/-- C7: the claim says a Geometry whose ellipse fields are all populated —
including `angle = 0` — yields the rotated, scaled, translated ellipse.  The
code instead tests the fields with Python truthiness (`all([...])`), so
`angle = 0.0` is treated as unpopulated and `shape` returns `None` for the
failing input `zeroAngleGeom` (width 2, height 1, center (3,4), angle 0),
under every shapely behaviour `ops`. -/
theorem shape_zero_angle_returns_none {Shp : Type} (ops : ShapelyOps Shp) :
    PopulationGeometry.shape ops zeroAngleGeom = none := rfl

/-- C4: `merge_populations` raises the parent-mismatch assertion
(`IncompatibleMergeError` in the specification taxonomy) whenever the two
parents differ, and — when the parents match and both shapes are present but
do not intersect — raises the non-overlap assertion
(`NonOverlappingMergeError`): disjoint populations are rejected and never
merged silently. -/
theorem merge_populations_precondition_errors {Shp : Type} (ops : ShapelyOps Shp)
    (left_p right_p : Population) :
    (left_p.parent ≠ right_p.parent →
      mergePopulations ops left_p right_p =
        Except.error (PyError.assertionError "Parent populations do not match"))
    ∧ (∀ ls rs : Shp, left_p.parent = right_p.parent →
        PopulationGeometry.shape ops left_p.geom = some ls →
        PopulationGeometry.shape ops right_p.geom = some rs →
        ops.intersects ls rs = false →
        mergePopulations ops left_p right_p =
          Except.error
            (PyError.assertionError "Invalid: cannot merge non-overlapping populations")) := by
  constructor
  · intro h
    simp [mergePopulations, h]
  · intro ls rs hpar hls hrs hint
    simp [mergePopulations, hpar, hls, hrs, hint]

/-- C4 witness: a parent mismatch, and a same-parent pair whose symbolic
shapes (square vs triangle) do not intersect under `symOps`. -/
theorem merge_populations_precondition_errors_witness :
    mergePopulations symOps popMergeL popOtherParent =
      Except.error (PyError.assertionError "Parent populations do not match")
    ∧ mergePopulations symOps popDisjointL popDisjointR =
      Except.error
        (PyError.assertionError "Invalid: cannot merge non-overlapping populations") := by
  constructor
  · exact (merge_populations_precondition_errors symOps popMergeL popOtherParent).1
      (by decide)
  · exact (merge_populations_precondition_errors symOps popDisjointL popDisjointR).2
      (SymShape.poly (squareGeom.x_values.zip squareGeom.y_values))
      (SymShape.poly (triGeom.x_values.zip triGeom.y_values))
      rfl rfl rfl (by decide)

/-- C3: the claim says a merge of two same-parent populations with
intersecting geometry succeeds with the deduplicated index union.  The code
calls `np.concatenate(left_p.index, right_p.index)` with two positional
arrays, so `right_p.index` is consumed as the `axis` argument and the call
raises instead of producing a union: at the failing input (indices {1,2,3}
and {3,4}, identical square geometry, same parent) the merge evaluates to a
`TypeError`, not to a population with index {1,2,3,4}. -/
theorem merge_populations_concatenate_misuse :
    mergePopulations symOps popMergeL popMergeR =
      Except.error
        (PyError.typeError "only integer scalar arrays can be converted to a scalar index") := rfl

/-- C5: with `meta` (the parameter the specification calls `by_meta`) true,
`get_cluster` gathers exactly the clusters whose `meta_cluster_id` equals the
given id, fails with the assertion (`NotFoundError` in the specification
taxonomy) when there is none, and otherwise returns that group together with
the deduplicated union of their loaded index sets. -/
theorem get_cluster_meta_union (p : Population) (cid : String)
    (hload : ∀ c ∈ metaMatches p cid,
      c.index.pos_end = false ∧ ∃ l, c.index.content = some (some l)) :
    (metaMatches p cid = [] →
      Population.get_cluster p cid true =
        Except.error (PyError.assertionError
          ("No such cluster(s) with meta clustering ID " ++ cid)))
    ∧ (metaMatches p cid ≠ [] → ∃ idx : List Int,
        Population.get_cluster p cid true =
          Except.ok (ClusterResult.group (metaMatches p cid) idx)
        ∧ idx.Nodup
        ∧ (∀ x : Int, x ∈ idx ↔ ∃ c ∈ metaMatches p cid, ∃ l : List Int,
            c.index.content = some (some l) ∧ x ∈ l)) := by
  constructor
  · intro hempty
    simp [Population.get_cluster, hempty]
  · intro hne
    have hie : (metaMatches p cid).isEmpty = false := by
      cases hmm : metaMatches p cid with
      | nil => exact absurd hmm hne
      | cons a t => rfl
    have hli := loadIndices_ok (metaMatches p cid) hload
    have hcat := npConcatenateAxis0_map_ok (metaMatches p cid) hne
      (fun c hc2 => (hload c hc2).2)
    refine ⟨npUnique (flattenL (((metaMatches p cid).map
        (fun c => c.index.content.getD none)).filterMap id)), ?_, nodup_npUnique _, ?_⟩
    · simp [Population.get_cluster, hie, hli, hcat]
    · intro x
      rw [mem_npUnique, mem_flattenL]
      constructor
      · rintro ⟨l, hl, hx⟩
        rw [List.mem_filterMap] at hl
        obtain ⟨o, ho, hoeq⟩ := hl
        rw [List.mem_map] at ho
        obtain ⟨c, hc2, rfl⟩ := ho
        obtain ⟨_, l2, hl2⟩ := hload c hc2
        refine ⟨c, hc2, l2, hl2, ?_⟩
        rw [hl2] at hoeq
        simp only [id_eq, Option.getD_some, Option.some.injEq] at hoeq
        rw [hoeq]
        exact hx
      · rintro ⟨c, hc2, l, hl2, hx⟩
        refine ⟨l, ?_, hx⟩
        rw [List.mem_filterMap]
        refine ⟨c.index.content.getD none, List.mem_map.mpr ⟨c, hc2, rfl⟩, ?_⟩
        rw [hl2]
        rfl

/-- C5 witness: three clusters with meta id "M1" holding {1,2,3}, {3,4} and
{5}; the aggregation returns exactly {1,2,3,4,5}. -/
theorem get_cluster_meta_union_witness :
    Population.get_cluster popM1 "M1" true =
      Except.ok (ClusterResult.group [clusterM1a, clusterM1b, clusterM1c] [1, 2, 3, 4, 5])
    ∧ (∃ idx : List Int,
        Population.get_cluster popM1 "M1" true =
          Except.ok (ClusterResult.group (metaMatches popM1 "M1") idx)
        ∧ idx.Nodup
        ∧ (∀ x : Int, x ∈ idx ↔ ∃ c ∈ metaMatches popM1 "M1", ∃ l : List Int,
            c.index.content = some (some l) ∧ x ∈ l)) := by
  have hload : ∀ c ∈ metaMatches popM1 "M1",
      c.index.pos_end = false ∧ ∃ l, c.index.content = some (some l) := by
    intro c hc
    have hmm : metaMatches popM1 "M1" = [clusterM1a, clusterM1b, clusterM1c] := rfl
    rw [hmm] at hc
    simp only [List.mem_cons, List.not_mem_nil, or_false] at hc
    rcases hc with rfl | rfl | rfl
    · exact ⟨rfl, [1, 2, 3], rfl⟩
    · exact ⟨rfl, [3, 4], rfl⟩
    · exact ⟨rfl, [5], rfl⟩
  exact ⟨rfl, (get_cluster_meta_union popM1 "M1" hload).2 (by decide)⟩

/-- C8: the claim says a second `load()` with no intervening save returns the
same materialized value.  The code re-reads the GridFS proxy without
`seek(0)` (contrast `File.get`, fcs.py line 492), so at the failing input —
a population whose blob stores {1,2,3} — the first call returns the array
while the second call observes the exhausted handle (`b""` is falsy) and
returns `None`, even though the in-memory `index` still holds the value. -/
theorem load_index_not_idempotent :
    (Population.load_index popC8).1 = some [1, 2, 3]
    ∧ (Population.load_index (Population.load_index popC8).2).1 = none
    ∧ (Population.load_index popC8).2.index = some [1, 2, 3] :=
  ⟨rfl, rfl, rfl⟩

/-- C9 counterexample: the claim says every index cache rejects a save with
absent in-memory data via `EmptyIndexError`, never silently doing nothing and
never persisting an absent value.  `ControlIndex.save_index` (whose result
type here is error-free) returns its receiver unchanged when `self.index` is
`None` — a silent no-op on `ctrlNoIdx` — and `Cluster.save_index` persists a
pickled `None` without any check. -/
theorem save_index_absent_counterexample :
    ControlIndex.save_index ctrlNoIdx [1, 2] = ctrlNoIdx
    ∧ (Cluster.save_index baseCluster none).index.content = some none :=
  ⟨rfl, rfl⟩

/-- C9 amended: only `Population.save_index` fails (with the
`assert self.index is not None` AssertionError, the specification's
`EmptyIndexError`) when its in-memory index is absent; `ControlIndex.save_index`
with `self.index` absent silently does nothing; and `Cluster.save_index`
performs no check at all and persists whatever payload it is given, including
an absent one. -/
theorem save_index_absent_amended (p : Population) (c : ControlIndex)
    (cl : Cluster) (d : List Int) (od : Option (List Int))
    (hp : p.index = none) (hc : c.index = none) :
    Population.save_index p = Except.error (PyError.assertionError "Index is null")
    ∧ ControlIndex.save_index c d = c
    ∧ (Cluster.save_index cl od).index.content = some od := by
  refine ⟨?_, ?_, rfl⟩
  · simp [Population.save_index, hp]
  · simp [ControlIndex.save_index, hc]

/-- C9 amended witness: the unloaded base population, the blob-backed control
index with absent in-memory data, and a cluster saving an absent payload. -/
theorem save_index_absent_amended_witness :
    basePop.index = none
    ∧ (Population.save_index basePop =
          Except.error (PyError.assertionError "Index is null")
      ∧ ControlIndex.save_index ctrlNoIdx [7] = ctrlNoIdx
      ∧ (Cluster.save_index baseCluster none).index.content = some none) :=
  ⟨rfl, save_index_absent_amended basePop ctrlNoIdx baseCluster [7] none rfl rfl⟩

/-- C10: when `delete_populations` receives a single string `s`, the
populations removed from the in-memory tree are exactly those whose name
occurs as a contiguous substring of `s` (Python `in` on strings), so a
population whose name is a proper substring of `s` is deleted even though it
was not named; the string "all" is not the builtin `all` object, so it does
not trigger the clear-all branch (`fgAll`, whose population "root" is not a
substring of "all", keeps all its populations), while passing the builtin
`all` object clears the list. -/
theorem delete_populations_substring_semantics (fg : FileGroup) (s : String) :
    (∀ p : Population,
      p ∈ (FileGroup.delete_populations fg (PyPopulationsArg.str s)).1.populations ↔
        p ∈ fg.populations ∧
          ¬ ∃ pre post : List Char,
            s.toList = pre ++ p.population_name.toList ++ post)
    ∧ (FileGroup.delete_populations fg PyPopulationsArg.allBuiltin).1.populations = []
    ∧ (FileGroup.delete_populations fgAll (PyPopulationsArg.str "all")).1.populations
        = fgAll.populations := by
  refine ⟨?_, rfl, rfl⟩
  intro p
  show p ∈ fg.populations.filter
      (fun q => !(pyNameIn q.population_name (PyPopulationsArg.str s))) ↔ _
  rw [List.mem_filter]
  constructor
  · rintro ⟨hm, hb⟩
    refine ⟨hm, fun hex => ?_⟩
    have hin : pyStrIn p.population_name.toList s.toList = true :=
      (pyStrIn_iff _ _).mpr hex
    rw [show pyNameIn p.population_name (PyPopulationsArg.str s)
        = pyStrIn p.population_name.toList s.toList from rfl, hin] at hb
    simp at hb
  · rintro ⟨hm, hnex⟩
    refine ⟨hm, ?_⟩
    show (!(pyNameIn p.population_name (PyPopulationsArg.str s))) = true
    rw [show pyNameIn p.population_name (PyPopulationsArg.str s)
        = pyStrIn p.population_name.toList s.toList from rfl]
    cases hcase : pyStrIn p.population_name.toList s.toList with
    | false => rfl
    | true => exact absurd ((pyStrIn_iff _ _).mp hcase) hnex

/-- C1: the claim says a completed save leaves `prop_of_total = n / root.n`
(which does hold) and `prop_of_parent = n / parent.n`.  In the source the
inner comprehension variable shadows the loop variable, so the denominator of
`prop_of_parent` is the `n` of the first self-parented population (root) for
every population.  At the failing input `fgC1` — root(4 events) ← A(2) ←
B(1), every parent resolving — the save completes and assigns B a
`prop_of_parent` of 1/4 (its `n` over root's), not the 1/2 (its `n` over
A's) the claim requires. -/
theorem save_prop_of_parent_shadowing_bug :
    (FileGroup.save fgC1).map (fun fg2 => fg2.populations.map Population.prop_of_parent)
      = Except.ok [some 1, some ((1:Rat)/2), some ((1:Rat)/4)]
    ∧ (FileGroup.save fgC1).map (fun fg2 => fg2.populations.map Population.prop_of_total)
      = Except.ok [some 1, some ((1:Rat)/2), some ((1:Rat)/4)]
    ∧ ((1:Rat)/4) ≠ ((1:Rat)/2) := by
  have e1 : (FileGroup.save fgC1).map (fun fg2 => fg2.populations.map Population.prop_of_parent)
      = Except.ok [some (((4:Nat):Rat)/((4:Nat):Rat)), some (((2:Nat):Rat)/((4:Nat):Rat)),
          some (((1:Nat):Rat)/((4:Nat):Rat))] := rfl
  have e2 : (FileGroup.save fgC1).map (fun fg2 => fg2.populations.map Population.prop_of_total)
      = Except.ok [some (((4:Nat):Rat)/((4:Nat):Rat)), some (((2:Nat):Rat)/((4:Nat):Rat)),
          some (((1:Nat):Rat)/((4:Nat):Rat))] := rfl
  refine ⟨?_, ?_, by norm_num⟩
  · rw [e1]
    norm_num
  · rw [e2]
    norm_num

/-- C2: the claim says `save()` fails when no population is named "root"
(it does: the `[...][0]` lookup raises IndexError, the specification's
`MissingRootError`, before anything is persisted) and fails with
`DanglingParentError` when some population's parent does not resolve.  The
shadowed comprehension `[p for p in self.populations if p.population_name == p.parent]`
never consults the outer population's `parent`, so at the failing input
`fgDangling` — population "C" with parent "ghost" — the save succeeds
instead of failing. -/
theorem save_dangling_parent_undetected :
    (FileGroup.save fgDangling).isOk = true
    ∧ FileGroup.save fgNoRoot = Except.error PyError.indexError :=
  ⟨rfl, rfl⟩
